import Mathlib

/-!
Verification of the lysai decision/orchestration core against its
natural-language specification.

The Python sources are shallowly embedded:
* `src/core/state.py`      → `AgentState` (plus `agentStateDeclaredFields`,
  the literal field list of the `AgentState` pydantic class);
* `src/agents/orchestrator.py` → `orchestrator_node`, `orchestrator_decide`,
  `force_progression`, `fallback_decision`;
* `src/agents/executor.py` → `executor_node`;
* `src/core/memory.py`     → `log_episode`, `update_episode`, `get_episode`;
* `src/core/semantic.py`   → `search_similar_questions`, `find_similar_patterns`,
  `find_relevant_insights`, `get_learning_context`;
* `src/core/llm_client.py` → `simple_fallback_response`.

Python `None`/value is modeled with `Option`; Python truthiness of optional
strings/lists with `pyTruthyStr`/`pyTruthyList`; heterogeneous history dicts
with the `HEntry` record of optional keys (reading an absent key with
`dict.get` yields `none`, exactly as in the source).  External effects
(the LLM call, the SQL execution, the vector index query, the wall clock)
are passed in as explicit arguments.
-/

/-- Python truthiness of an optional string: `None` and `""` are falsy. -/
def pyTruthyStr : Option String → Bool
  | none => false
  | some s => !(s == "")

/-- Python truthiness of an optional list: `None` and `[]` are falsy. -/
def pyTruthyList {α : Type} : Option (List α) → Bool
  | none => false
  | some l => !l.isEmpty

/-- Python truthiness of an optional integer id: `None` and `0` are falsy. -/
def pyTruthyNat : Option Nat → Bool
  | none => false
  | some n => !(n == 0)

/-- `listStartsWith hay pat` = `pat` is an initial segment of `hay`
(character lists). -/
def listStartsWith : List Char → List Char → Bool
  | _, [] => true
  | [], _ :: _ => false
  | a :: as, b :: bs => a == b && listStartsWith as bs

/-- `listHasSub hay pat` = `pat` occurs contiguously inside `hay`;
the embedding of Python `pat in hay` on strings. -/
def listHasSub : List Char → List Char → Bool
  | [], pat => pat.isEmpty
  | h :: t, pat => listStartsWith (h :: t) pat || listHasSub t pat

/-- Python `pat in hay` for strings. -/
def strHasSub (hay pat : String) : Bool :=
  listHasSub hay.data pat.data

/-- Python `l[-n:]`: the last `n` elements of a list. -/
def lastN {α : Type} (n : Nat) (l : List α) : List α :=
  l.drop (l.length - n)

/-!
String operations are given list-level definitions (rather than the
positional ones of the standard library) so that concrete instances
evaluate by kernel reduction. -/

/-- ASCII lower-casing of one character, as Python `str.lower` acts on the
ASCII strings of this code base. -/
def pyLowerChar (c : Char) : Char :=
  if 65 ≤ c.toNat && c.toNat ≤ 90 then Char.ofNat (c.toNat + 32) else c

/-- ASCII upper-casing of one character (Python `str.upper`). -/
def pyUpperChar (c : Char) : Char :=
  if 97 ≤ c.toNat && c.toNat ≤ 122 then Char.ofNat (c.toNat - 32) else c

/-- Python `s.lower()`. -/
def strToLower (s : String) : String := ⟨s.data.map pyLowerChar⟩

/-- Python `s.upper()`. -/
def strToUpper (s : String) : String := ⟨s.data.map pyUpperChar⟩

/-- Python `s.strip()` (on the whitespace characters occurring here). -/
def strTrim (s : String) : String :=
  ⟨((s.data.dropWhile Char.isWhitespace).reverse.dropWhile
      Char.isWhitespace).reverse⟩

/-- Python `s[:n]`. -/
def strTake (s : String) (n : Nat) : String := ⟨s.data.take n⟩

/-- Python `s.startswith(pre)`. -/
def strStartsWith (s pre : String) : Bool := listStartsWith s.data pre.data

/-- `split` of a character list at the newline character. -/
def splitOnNl : List Char → List (List Char)
  | [] => [[]]
  | c :: rest =>
    if c == '\n' then [] :: splitOnNl rest
    else
      match splitOnNl rest with
      | h :: t => (c :: h) :: t
      | [] => [[c]]

/-- Python `s.split('\n')`. -/
def strSplitNl (s : String) : List String :=
  (splitOnNl s.data).map fun l => ⟨l⟩

/-- `join` of character lists with a newline separator. -/
def joinNl : List (List Char) → List Char
  | [] => []
  | [x] => x
  | x :: rest => x ++ '\n' :: joinNl rest

/-- Python `'\n'.join(ls)`. -/
def strJoinNl (ls : List String) : String := ⟨joinNl (ls.map String.data)⟩

/-- A single-quote character, used inside embedded message strings. -/
def sQuote : String := String.singleton (Char.ofNat 39)

/-! ## Data model (src/core/state.py) -/

/-- A result row: a JSON object, modeled as a key/value list.  The
orchestration core never looks inside rows, only at list emptiness and
equality. -/
abbrev Row := List (String × String)

/-- A tool descriptor: the orchestrator only tests list emptiness and
length of `available_tools`, never the dict contents, so a tool is
modeled by its name. -/
abbrev Tool := String

/-- The dict stored under the `"insight"` key of a summarizer payload
(`{"insight": ..., "caveats": ...}`); only `insight` is ever read. -/
structure InsightDict where
  insight : Option String := none
  deriving DecidableEq, Repr

/-- The value under a history entry's `"summarizer"` key.  The code does
`summary_data.get("response", summary_data)` and then `.get("insight", "")`,
so a dict value carries the optional `response` sub-dict and its own
optional `insight`; a non-dict value (e.g. a list) leaves `has_insights`
false. -/
inductive SummVal where
  | dict (response : Option InsightDict) (selfInsight : Option String)
  | nonDict
  deriving DecidableEq, Repr

/-- One history entry: a Python dict with optional keys.  `entry.get(k)`
on an absent key returns `None`, so every key is an `Option` defaulting
to `none`.  (`"summarizer" in entry` is a key-presence test, hence its own
`Option`.)  The `raw` payloads appended by stage nodes carry no
information any embedded function reads and are not modeled. -/
structure HEntry where
  agent : Option String := none
  role : Option String := none
  action : Option String := none
  decision : Option String := none
  reasoning : Option String := none
  reason : Option String := none
  repeated_action : Option String := none
  forced_action : Option String := none
  fallback_action : Option String := none
  error : Option String := none
  content : Option String := none
  pdf_path : Option String := none
  insight : Option String := none
  summarizer : Option SummVal := none
  step : Option Nat := none
  context_used : Option (Nat × Nat) := none
  deriving DecidableEq, Repr

/-- The run state (`AgentState` in src/core/state.py).  `next_action` is
*not* declared in state.py (see `agentStateDeclaredFields`); the
orchestrator assigns it as a dynamic attribute, so the embedding carries
it as an extra slot, `none` until first assigned. -/
structure AgentState where
  question : String
  plan : Option (List String) := none
  sql : Option String := none
  rows : Option (List Row) := none
  error : Option String := none
  available_tools : Option (List Tool) := none
  history : List HEntry := []
  episode_id : Option Nat := none
  step : Nat := 0
  max_steps : Nat := 6
  next_action : Option String := none
  deriving DecidableEq, Repr

/-- The field names literally declared by the `AgentState` pydantic class
in src/core/state.py (lines 8–22), in source order. -/
def agentStateDeclaredFields : List String :=
  ["question", "plan", "sql", "rows", "error", "available_tools",
   "history", "episode_id", "step", "max_steps", "action", "observation",
   "confidence"]

/-! ## Orchestrator (src/agents/orchestrator.py) -/

/-- The enumerated action vocabulary (`valid_actions`, orchestrator.py
line 118).  The source stores them in a Python `set`, whose iteration
order is unspecified; this list fixes the literal source order and no
theorem depends on the scan order beyond membership. -/
def validActions : List String :=
  ["INSPECT_TOOLS", "PLAN", "EXECUTE", "REFLECT", "SUMMARIZE",
   "GENERATE_PDF", "DONE"]

/-- The loop detector's collected decisions (orchestrator.py lines 26–29):
from the last 5 history entries, every entry with `agent == 'orchestrator'`
contributes `entry.get('decision')` — `none` when the entry has no
`decision` key. -/
def recentDecisions (hist : List HEntry) : List (Option String) :=
  (lastN 5 hist).filterMap fun e =>
    if e.agent == some "orchestrator" then some e.decision else none

/-- `len(set(l)) == 1` for a nonempty list: all elements equal the head. -/
def allSame : List (Option String) → Bool
  | [] => true
  | a :: rest => rest.all (· == a)

/-- `_force_progression` (orchestrator.py lines 176–187). -/
def force_progression (state : AgentState) (repeated_action : Option String) :
    String :=
  if repeated_action == some "INSPECT_TOOLS" &&
      pyTruthyList state.available_tools then "PLAN"
  else if repeated_action == some "PLAN" && pyTruthyList state.plan then
    "EXECUTE"
  else if repeated_action == some "EXECUTE" && pyTruthyStr state.sql then
    (if pyTruthyList state.rows then "SUMMARIZE" else "REFLECT")
  else if repeated_action == some "REFLECT" then
    "DONE"  -- give up after too many reflections
  else
    "DONE"  -- default fallback

/-- The `has_insights` scan of `_fallback_decision` (orchestrator.py
lines 192–203): walk `history`; the first entry carrying a `"summarizer"`
key decides (via `summary_data.get("response", summary_data)` and
`.get("insight", "").strip()`) and breaks; an entry whose `insight` key is
truthy decides true and breaks. -/
def hasInsightsOf : List HEntry → Bool
  | [] => false
  | e :: rest =>
    match e.summarizer with
    | some (SummVal.dict response selfInsight) =>
      let responseData := match response with
        | some rd => rd.insight.getD ""
        | none => selfInsight.getD ""
      !(strTrim responseData == "")
    | some SummVal.nonDict => false
    | none =>
      if pyTruthyStr e.insight then true else hasInsightsOf rest

/-- The `pdf_generated` scan (orchestrator.py lines 206–211): some entry
with `role == 'pdf_generator'` and a truthy `pdf_path` or the phrase
`'PDF generated successfully'` inside its `content`. -/
def pdfGeneratedOf (hist : List HEntry) : Bool :=
  hist.any fun e =>
    e.role == some "pdf_generator" &&
      (pyTruthyStr e.pdf_path ||
        strHasSub (e.content.getD "") "PDF generated successfully")

/-- The sentinel state-indicator strings excluded from being a real error
(orchestrator.py line 214). -/
def stateIndicatorStrings : List String :=
  ["no_sql_to_execute", "no_data", "no_plan"]

/-- `real_error` (orchestrator.py line 214): the error is truthy and not
one of the state-indicator strings. -/
def realErrorOf (error : Option String) : Bool :=
  pyTruthyStr error &&
    !(stateIndicatorStrings.contains (error.getD ""))

/-- `tool_inspection_done` (orchestrator.py lines 217–220): some history
entry has `role == 'tool_inspector'`. -/
def toolInspectionDoneOf (hist : List HEntry) : Bool :=
  hist.any fun e => e.role == some "tool_inspector"

/-- `_fallback_decision` (orchestrator.py lines 189–238): the
deterministic fallback tree. -/
def fallback_decision (state : AgentState) : String :=
  let has_insights := hasInsightsOf state.history
  let pdf_generated := pdfGeneratedOf state.history
  let real_error := realErrorOf state.error
  let tool_inspection_done := toolInspectionDoneOf state.history
  if !(pyTruthyList state.available_tools) && !tool_inspection_done then
    "INSPECT_TOOLS"
  else if real_error &&
      (state.history.filter (fun h => h.agent == some "reflector")).length
        < 2 then
    "REFLECT"
  else if !(pyTruthyList state.plan) then
    "PLAN"
  else if pyTruthyList state.plan && pyTruthyStr state.sql &&
      !(pyTruthyList state.rows) then
    "EXECUTE"
  else if strHasSub (strToLower state.question) "pdf" &&
      pyTruthyList state.rows && has_insights && pdf_generated then
    "DONE"
  else if strHasSub (strToLower state.question) "pdf" &&
      pyTruthyList state.rows && has_insights then
    "GENERATE_PDF"
  else if pyTruthyList state.rows && !has_insights then
    "SUMMARIZE"
  else
    "DONE"

/-- The `{agent: orchestrator, action: circuit_breaker, ...}` dict
literal (orchestrator.py lines 17–22).  In the source the append is never
reached: the `next_action` assignment at line 16 raises first. -/
def circuitBreakerRecord (step : Nat) : HEntry :=
  { agent := some "orchestrator", action := some "circuit_breaker",
    reason := some "max_steps_reached", step := some step }

/-- The `{agent: orchestrator, action: loop_breaker, ...}` dict literal
(orchestrator.py lines 35–41).  In the source the append is never
reached: the `next_action` assignment at line 34 raises first. -/
def loopBreakerRecord (repeated : Option String) (forced : String)
    (step : Nat) : HEntry :=
  { agent := some "orchestrator", action := some "loop_breaker",
    repeated_action := repeated, forced_action := some forced,
    step := some step }

/-- The `{agent: orchestrator, action: decide_next_action, ...}` dict
literal (orchestrator.py lines 142–152).  In the source the append is
never reached: the `next_action` assignment at line 139 raises first. -/
def decideRecord (decision reasoning : String) (step patterns insights :
    Nat) : HEntry :=
  { agent := some "orchestrator", action := some "decide_next_action",
    decision := some decision, reasoning := some reasoning,
    step := some step, context_used := some (patterns, insights) }

/-- The `{agent: orchestrator, action: error_fallback, ...}` dict
literal (orchestrator.py lines 167–173).  In the source the append is
never reached: the handler's `next_action` assignment at line 165 raises
first. -/
def errorFallbackRecord (err fallback : String) (step : Nat) : HEntry :=
  { agent := some "orchestrator", action := some "error_fallback",
    error := some err, fallback_action := some fallback,
    step := some step }

/-- The exception escaping one orchestrator call.  `AgentState` is a
pydantic `BaseModel` without `extra='allow'`, so assigning the undeclared
attribute `next_action` raises `ValueError`
(`"AgentState" object has no field "next_action"`); the prompt f-string's
unbound `has_insights` raises `NameError`. -/
inductive PyExc where
  | undeclaredFieldAssignment
  | nameErrorHasInsights
  deriving DecidableEq, Repr

/-- Outcome of one orchestrator call.  `state.step += 1` mutates the
caller's object in place (a declared field, so it succeeds); when the
function raises, the caller still observes that mutated state, so
`raised` carries the exception together with it. -/
inductive OrchResult where
  | ok (s : AgentState)
  | raised (exc : PyExc) (s : AgentState)
  deriving DecidableEq, Repr

/-- The run state as seen by the caller after the call, whether the call
returned or raised. -/
def OrchResult.state : OrchResult → AgentState
  | .ok s => s
  | .raised _ s => s

/-- `orchestrator_node` (orchestrator.py lines 6–174) under pydantic
semantics: `step += 1` succeeds (a declared field).  In the
circuit-breaker branch, `state.next_action = "DONE"` (line 16) raises
`ValueError` — pydantic rejects assignment of the undeclared field
`next_action` — *before* the history append at line 17.  In the
loop-breaker branch, `_force_progression` is evaluated and then the
assignment at line 34 raises the same `ValueError` before the append at
line 35.  Otherwise the code builds the oracle prompt (lines 63–106),
whose f-string interpolates the name `has_insights` (line 96) — never
bound in this function's scope — so prompt construction raises
`NameError` before the `try` block at line 108.  (`get_learning_context`
is separately guarded at lines 47–51 and `_build_decision_context`
cannot raise.)  Every branch therefore raises with only `step`
mutated. -/
def orchestrator_node (state : AgentState) : OrchResult :=
  let s := { state with step := state.step + 1 }
  if s.step > s.max_steps then
    .raised .undeclaredFieldAssignment s
  else
    let rd := recentDecisions s.history
    if rd.length ≥ 3 && allSame (lastN 3 rd) then
      .raised .undeclaredFieldAssignment s
    else
      .raised .nameErrorHasInsights s

/-- `parse_oracle_action` is the parse/validate/extract-or-fallback step
of the `try` block (orchestrator.py lines 110–137): first response line,
trimmed and upper-cased, accepted if enumerated; otherwise the first
enumerated token occurring in the upper-cased full text; otherwise
`_fallback_decision`.  Returns the chosen action together with the
reason text the code builds alongside it.  (In the source this code is
unreachable behind the line-96 `NameError`; it is embedded so the
choosing behavior can be stated.) -/
def parse_oracle_action (state : AgentState) (text : String) :
    String × String :=
  let decision_text := strTrim text
  let lines := strSplitNl decision_text
  let action0 := strToUpper (strTrim (lines.headD ""))
  let reason0 :=
    if lines.length > 1 then
      strTrim (strJoinNl (lines.drop 1))
    else "No reason provided"
  if validActions.contains action0 then (action0, reason0)
  else
    let full_text := strToUpper decision_text
    match validActions.find? (fun a => strHasSub full_text a) with
    | some found =>
      (found, "Extracted " ++ sQuote ++ found ++ sQuote ++ " from: " ++
        strTake action0 50 ++ "...")
    | none =>
      let fb := fallback_decision state
      (fb, "Invalid action " ++ sQuote ++ strTake action0 30 ++ "..." ++
        sQuote ++ ", using fallback: " ++ fb)

/-- The decision step, the body of `orchestrator_node`'s `try` block
(orchestrator.py lines 108–174), under pydantic semantics.  On an oracle
response, the action is chosen (lines 110–137, `parse_oracle_action`),
but the assignment `state.next_action = action` at line 139 raises
pydantic's `ValueError`; the `except` at line 162 catches it, and the
handler's own assignment at line 165 raises the same `ValueError`,
uncaught — before `state.error` is set (line 166) or the
`error_fallback` record is appended (line 167).  On an oracle exception
the handler likewise raises at line 165.  Either way the call raises
with no field of the state mutated. -/
def orchestrator_decide (state : AgentState)
    (oracle : Except String String) : OrchResult :=
  match oracle with
  | .ok _ => .raised .undeclaredFieldAssignment state
  | .error _ => .raised .undeclaredFieldAssignment state

/-! ## Episodic store (src/core/memory.py)

The sqlite `episodes` table is a list of rows plus the AUTOINCREMENT
counter (ids start at 1).  The `plan_json`/`rows_json` columns hold
`json.dumps` of the plan/rows; since `json.loads ∘ json.dumps` is the
identity on these values and `json.dumps` of any non-`None` value is a
nonempty (truthy) string, the cells are modeled by the deserialized
values.  The best-effort semantic-index writes inside `log_episode` and
`update_episode` are guarded by `try/except` in the source and do not
touch the table; they are not modeled. -/

/-- One row of the `episodes` table. -/
structure Episode where
  id : Nat
  timestamp : String
  question : String
  plan_json : Option (List String) := none
  sql : Option String := none
  rows_json : List Row := []
  outcome : Option String := none
  error : Option String := none
  insight : Option String := none
  deriving DecidableEq, Repr

/-- The episodes table with its AUTOINCREMENT counter. -/
structure Store where
  episodes : List Episode := []
  nextId : Nat := 1
  deriving DecidableEq, Repr

/-- `log_episode` (memory.py lines 68–106): insert a fresh row
(`plan_json = dumps(plan) if plan is not None else None`,
`rows_json = dumps(rows or [])`) and return its id.  `ts` is the wall
clock value used for the timestamp column. -/
def log_episode (store : Store) (ts : String) (question : String)
    (plan : Option (List String)) (sql : Option String)
    (rows : Option (List Row)) (outcome : Option String)
    (error : Option String) (insight : Option String) : Nat × Store :=
  let ep : Episode :=
    { id := store.nextId, timestamp := ts, question := question,
      plan_json := plan, sql := sql, rows_json := rows.getD [],
      outcome := outcome, error := error, insight := insight }
  (store.nextId,
   { episodes := store.episodes ++ [ep], nextId := store.nextId + 1 })

/-- The keyword arguments of `update_episode`: the outer `Option` is key
presence in `**fields`, the inner value is what the column is set to
(`plan` → `dumps(v) if v is not None else None`; `rows` → `dumps(v or [])`;
scalars overwrite directly). -/
structure UpdateFields where
  question : Option String := none
  plan : Option (Option (List String)) := none
  sql : Option (Option String) := none
  rows : Option (Option (List Row)) := none
  outcome : Option (Option String) := none
  error : Option (Option String) := none
  insight : Option (Option String) := none
  deriving DecidableEq, Repr

/-- Apply one `UPDATE episodes SET ... WHERE id = ?` row patch. -/
def applyUpdate (fields : UpdateFields) (e : Episode) : Episode :=
  { e with
      question := fields.question.getD e.question,
      plan_json := match fields.plan with
        | some v => v
        | none => e.plan_json,
      sql := match fields.sql with
        | some v => v
        | none => e.sql,
      rows_json := match fields.rows with
        | some v => v.getD []
        | none => e.rows_json,
      outcome := match fields.outcome with
        | some v => v
        | none => e.outcome,
      error := match fields.error with
        | some v => v
        | none => e.error,
      insight := match fields.insight with
        | some v => v
        | none => e.insight }

/-- `update_episode` (memory.py lines 108–141): patch the named fields of
the row with the given id, leaving every other column and row unchanged. -/
def update_episode (store : Store) (ep_id : Nat) (fields : UpdateFields) :
    Store :=
  { store with
      episodes := store.episodes.map fun e =>
        if e.id == ep_id then applyUpdate fields e else e }

/-- The dict returned by `get_episode`: the row with `plan` and `rows`
parsed back from their JSON cells (`if episode.get('plan_json')` is true
exactly when the cell is non-`NULL`, because `json.dumps` output is a
nonempty string; `rows_json` is always a serialized list). -/
structure EpisodeView where
  id : Nat
  timestamp : String
  question : String
  plan : Option (List String)
  sql : Option String
  rows : List Row
  outcome : Option String
  error : Option String
  insight : Option String
  deriving DecidableEq, Repr

/-- `get_episode` (memory.py lines 206–228): the row with the given id,
or `none`. -/
def get_episode (store : Store) (episode_id : Nat) : Option EpisodeView :=
  (store.episodes.find? fun e => e.id == episode_id).map fun e =>
    { id := e.id, timestamp := e.timestamp, question := e.question,
      plan := e.plan_json, sql := e.sql, rows := e.rows_json,
      outcome := e.outcome, error := e.error, insight := e.insight }

/-! ## Executor (src/agents/executor.py) -/

/-- Outcome of `json.loads` on the first content item's `text` field. -/
inductive JsonParse where
  | list (rs : List Row)
  | nonList (tyName : String)
  | decodeErr (msg : String)
  deriving DecidableEq, Repr

/-- Shape of `result.get("content", [])` as the executor's branch
structure distinguishes it: a nonempty list whose first item has a `text`
attribute (with the `json.loads` outcome), a nonempty list of dicts, a
nonempty list of neither shape, or an empty/non-list value. -/
inductive MCPContent where
  | textFirst (parsed : JsonParse)
  | dictList (first : Row) (rest : List Row)
  | badFirst (tyName : String)
  | emptyOrInvalid
  deriving DecidableEq, Repr

/-- What `sync_execute_sql` produced: the result dict (success flag,
content, error message) or a raised exception. -/
inductive ExecOutcome where
  | result (success : Bool) (content : MCPContent)
      (errMsg : Option String)
  | raised (msg : String)
  deriving DecidableEq, Repr

/-- The `rows`/`error` pair the try/except of `executor_node` (executor.py
lines 24–68) assigns for a given execution outcome. -/
def executorRowsError : ExecOutcome → List Row × Option String
  | .raised msg => ([], some ("Executor error: " ++ msg))
  | .result success content errMsg =>
    if success then
      match content with
      | .textFirst (.list rs) => (rs, none)
      | .textFirst (.nonList ty) => ([], some ("Expected list, got " ++ ty))
      | .textFirst (.decodeErr m) =>
        ([], some ("JSON parsing error: " ++ m))
      | .dictList first rest => (first :: rest, none)
      | .badFirst ty => ([], some ("Unexpected content format: " ++ ty))
      | .emptyOrInvalid => ([], some "Empty or invalid content")
    else
      ([], some (errMsg.getD "Unknown MCP error"))

/-- `executor_node` (executor.py lines 7–87): lazily create the episode,
bail out on missing sql, otherwise set `rows`/`error` from the execution
outcome, update the episode, and append the executor history record
(whose `content` key carries `state.sql`).  `outcome` is what the
external `sync_execute_sql` call did; `ts` the wall clock for a lazily
created episode. -/
def executor_node (state : AgentState) (outcome : ExecOutcome)
    (store : Store) (ts : String) : AgentState × Store :=
  let ensured :=
    match state.episode_id with
    | none =>
      let logged := log_episode store ts state.question state.plan
        state.sql none none none none
      ({ state with episode_id := some logged.1 }, logged.2)
    | some _ => (state, store)
  let s := ensured.1
  let st := ensured.2
  if !(pyTruthyStr s.sql) then
    ({ s with error := some "no_sql_to_execute" }, st)
  else
    let re := executorRowsError outcome
    let s := { s with rows := some re.1, error := re.2 }
    let st :=
      if pyTruthyNat s.episode_id then
        update_episode st (s.episode_id.getD 0)
          { sql := some s.sql, rows := some s.rows, error := some s.error,
            outcome := some (some
              (if !(pyTruthyStr s.error) && pyTruthyList s.rows then
                "success" else "error")) }
      else st
    ({ s with history :=
        s.history ++ [{ role := some "executor", content := s.sql }] }, st)

/-! ## Similarity index (src/core/semantic.py)

The ChromaDB collections are external; a query's ranked answer is passed
in as a list of `(episode_id, distance)` pairs (already truncated to the
requested `n_results`), distances idealized as rationals. -/

/-- Python `max(a, b)` on rationals (returns the first argument on
ties), kernel-reducible. -/
def pyMax (a b : ℚ) : ℚ := if a < b then b else a

/-- A `SemanticMatch` (semantic.py lines 11–18). -/
structure SemanticMatch where
  episode_id : Nat
  episode : EpisodeView
  distance : ℚ
  similarity : ℚ
  content_type : String
  deriving DecidableEq, Repr

/-- `SemanticMemory.search_similar_questions` (semantic.py lines 87–121):
resolve each index hit against the episodic store, dropping hits whose
episode no longer exists, converting distance to
`similarity = max(0, 1 - distance)`. -/
def search_similar_questions (queryResults : List (Nat × ℚ))
    (store : Store) : List SemanticMatch :=
  queryResults.filterMap fun p =>
    (get_episode store p.1).map fun ep =>
      { episode_id := p.1, episode := ep, distance := p.2,
        similarity := pyMax 0 (1 - p.2), content_type := "question" }

/-- `SemanticMemory.search_similar_insights` (semantic.py lines 123–156). -/
def search_similar_insights (queryResults : List (Nat × ℚ))
    (store : Store) : List SemanticMatch :=
  queryResults.filterMap fun p =>
    (get_episode store p.1).map fun ep =>
      { episode_id := p.1, episode := ep, distance := p.2,
        similarity := pyMax 0 (1 - p.2), content_type := "insight" }

/-- `SemanticMemory.find_similar_patterns` (semantic.py lines 169–184):
keep successful matches with truthy sql above the 0.3 similarity
threshold, capped at `limit`. -/
def find_similar_patterns (queryResults : List (Nat × ℚ)) (store : Store)
    (limit : Nat) : List SemanticMatch :=
  ((search_similar_questions queryResults store).filter fun m =>
    m.episode.outcome == some "success" && pyTruthyStr m.episode.sql &&
      decide ((3 : ℚ)/10 < m.similarity)).take limit

/-- `SemanticMemory.find_relevant_insights` (semantic.py lines 186–199):
keep matches with a truthy insight above the 0.2 threshold, capped at
`limit`. -/
def find_relevant_insights (queryResults : List (Nat × ℚ)) (store : Store)
    (limit : Nat) : List SemanticMatch :=
  ((search_similar_insights queryResults store).filter fun m =>
    pyTruthyStr m.episode.insight &&
      decide ((1 : ℚ)/5 < m.similarity)).take limit

/-- One entry of `similar_patterns` in the learning context. -/
structure PatternInfo where
  episode_id : Nat
  question : String
  sql : Option String
  similarity : ℚ
  outcome : Option String
  deriving DecidableEq, Repr

/-- One entry of `relevant_insights` in the learning context. -/
structure InsightInfo where
  episode_id : Nat
  insight : Option String
  original_question : String
  similarity : ℚ
  deriving DecidableEq, Repr

/-- The dict returned by `get_learning_context`. -/
structure LearningContext where
  similar_patterns : List PatternInfo
  relevant_insights : List InsightInfo
  total_similar_patterns : Nat
  total_insights : Nat
  deriving DecidableEq, Repr

/-- `SemanticMemory.get_learning_context` (semantic.py lines 201–230):
compose `find_similar_patterns` (default limit 3, question index) and
`find_relevant_insights` (default limit 3, insight index).
`qResults`/`iResults` are the two collections' ranked answers for the
current question. -/
def get_learning_context (qResults iResults : List (Nat × ℚ))
    (store : Store) : LearningContext :=
  let sp := find_similar_patterns qResults store 3
  let ri := find_relevant_insights iResults store 3
  { similar_patterns := sp.map fun m =>
      { episode_id := m.episode_id, question := m.episode.question,
        sql := m.episode.sql, similarity := m.similarity,
        outcome := m.episode.outcome },
    relevant_insights := ri.map fun m =>
      { episode_id := m.episode_id, insight := m.episode.insight,
        original_question := m.episode.question,
        similarity := m.similarity },
    total_similar_patterns := sp.length,
    total_insights := ri.length }

/-! ## Canned heuristic responder (src/core/llm_client.py) -/

/-- The generic apology text of `_simple_fallback_response`
(llm_client.py line 361). -/
def apologyText : String :=
  "I apologize, but I" ++ sQuote ++
    "m currently unable to process this request due to API limitations. " ++
    "Please try again later."

/-- The canned planner payload (llm_client.py line 357). -/
def plannerFallbackJson : String :=
  "\x7b\"plan\": [\"Analyze the question\", \"Generate appropriate SQL " ++
  "query\", \"Execute and return results\"], \"sql_candidate\": " ++
  "\"SELECT * FROM actor LIMIT 10;\", \"rationale\": \"Simple fallback " ++
  "query due to API limitations\"\x7d"

/-- The branch body of `FallbackLLM._simple_fallback_response`
(llm_client.py lines 337–361): the heuristic keyed on the lower-cased
prompt — the orchestration marker phrase and its six state probes, the
json-mode planner payload, or the generic apology. -/
def simple_fallback_core (prompt_lower : String) (json_mode : Bool) :
    String :=
  if strHasSub prompt_lower "what action should be taken next" then
    if strHasSub prompt_lower "tools available: no" ||
        strHasSub prompt_lower "tools available: missing" then
      "INSPECT_TOOLS\nNeed to examine available tools first."
    else if strHasSub prompt_lower "plan exists: no" then
      "PLAN\nNeed to create a plan to answer the question."
    else if strHasSub prompt_lower "sql query: no" &&
        strHasSub prompt_lower "plan exists: yes" then
      "EXECUTE\nNeed to execute the SQL query to get data."
    else if strHasSub prompt_lower "has results: yes" &&
        strHasSub prompt_lower "has insights: no" then
      "SUMMARIZE\nNeed to generate insights from the results."
    else if strHasSub prompt_lower "pdf requested: yes" &&
        strHasSub prompt_lower "has insights: yes" then
      "GENERATE_PDF\nNeed to create the requested PDF report."
    else
      "DONE\nTask appears to be complete."
  else if json_mode &&
      (strHasSub prompt_lower "plan" || strHasSub prompt_lower "sql") then
    plannerFallbackJson
  else
    apologyText

/-- `FallbackLLM._simple_fallback_response` (llm_client.py lines 334–367),
the canned heuristic responder used when both backends are rate limited;
returns the `text` of the produced `LLMResponse`: the core heuristic
response, JSON-wrapped when json_mode is set and the response does not
already start with a brace.  The `system_instruction` parameter is never
read by the source body and is omitted. -/
def simple_fallback_response (prompt : String) (json_mode : Bool) :
    String :=
  let response := simple_fallback_core (strToLower prompt) json_mode
  if json_mode && !(strStartsWith response "\x7b") then
    "\x7b\"response\": \"" ++ response ++ "\"\x7d"
  else
    response

/-- `response text contains one of the 7 enumerated actions`. -/
def containsValidAction (s : String) : Bool :=
  validActions.any fun a => strHasSub s a

/-! ## Spec-side definitions and concrete states used by the theorems -/

/-- The forced-progression mapping as amended: repeated tool-inspection →
PLAN when tools are now available; repeated planning → EXECUTE when a
plan now exists; repeated execution *with sql present* → SUMMARIZE when
rows exist, else REFLECT; repeated reflection → DONE; anything else
(including a repeated `None` and the failed side conditions) → DONE. -/
def forcedProgressionSpec (s : AgentState) (repeated : Option String) :
    String :=
  if repeated = some "INSPECT_TOOLS" ∧ pyTruthyList s.available_tools = true
    then "PLAN"
  else if repeated = some "PLAN" ∧ pyTruthyList s.plan = true then "EXECUTE"
  else if repeated = some "EXECUTE" ∧ pyTruthyStr s.sql = true then
    (if pyTruthyList s.rows = true then "SUMMARIZE" else "REFLECT")
  else if repeated = some "REFLECT" then "DONE"
  else "DONE"

/-- A loop state with three repeated EXECUTE decisions, rows present but
`sql` null. -/
def c4LoopState : AgentState :=
  { question := "q", sql := none, rows := some [[("a", "1")]],
    available_tools := some ["t"],
    history := [decideRecord "EXECUTE" "r" 1 0 0,
                decideRecord "EXECUTE" "r" 2 0 0,
                decideRecord "EXECUTE" "r" 3 0 0] }

/-- A loop state with three repeated PLAN decisions and a plan now
present. -/
def c4WitnessState : AgentState :=
  { question := "q", plan := some ["step1"],
    available_tools := some ["t"],
    history := [decideRecord "PLAN" "r" 1 0 0,
                decideRecord "PLAN" "r" 2 0 0,
                decideRecord "PLAN" "r" 3 0 0] }

/-- A run state whose last three history entries are orchestrator
`error_fallback` records, which carry no `decision` key. -/
def c10WitnessState : AgentState :=
  { question := "q",
    history := [errorFallbackRecord "e" "DONE" 1,
                errorFallbackRecord "e" "DONE" 2,
                errorFallbackRecord "e" "DONE" 3] }

/-- A state with plan and sql set, rows null, tools available, and the
spec's literal pseudo-error string. -/
def c5PseudoErrorState : AgentState :=
  { question := "q", plan := some ["p"], sql := some "SELECT 1",
    rows := none, error := some "no query to execute yet",
    available_tools := some ["t"] }

/-- "The Stage Operation reported success": the MCP result carried a
truthy success flag and content that parses to a row list (a text item
whose JSON is a list, or a list of dicts). -/
def execReportedOk : ExecOutcome → Bool
  | .result true (.textFirst (.list _)) _ => true
  | .result true (.dictList _ _) _ => true
  | _ => false

/-- A store holding one episode with id 1, used by concrete executor
states. -/
def c6Store : Store :=
  { episodes := [{ id := 1, timestamp := "t", question := "q" }],
    nextId := 2 }

/-- The claim's resolution step, in its own words: each ranked index hit
is resolved against the Episodic Store, hits whose backing episode has
since vanished are dropped, and each match's similarity equals
`max(0, 1 - distance)`. -/
def claimResolvedMatches (queryResults : List (Nat × ℚ)) (store : Store)
    (ctype : String) : List SemanticMatch :=
  queryResults.filterMap fun p =>
    (get_episode store p.1).map fun ep =>
      { episode_id := p.1, episode := ep, distance := p.2,
        similarity := pyMax 0 (1 - p.2), content_type := ctype }

/-- `similar_patterns` as the claim states it, with the claim's literal
"non-null sql" filter (`Option.isSome`). -/
def claimSimilarPatternsNonNull (qResults : List (Nat × ℚ))
    (store : Store) : List PatternInfo :=
  (((claimResolvedMatches qResults store "question").filter fun m =>
      decide (m.episode.outcome = some "success") && m.episode.sql.isSome &&
        decide (m.similarity > 3/10)).take 3).map fun m =>
    { episode_id := m.episode_id, question := m.episode.question,
      sql := m.episode.sql, similarity := m.similarity,
      outcome := m.episode.outcome }

/-- `similar_patterns` as amended: question-index matches filtered to
outcome = success, *truthy* (non-empty) sql and similarity > 0.3, capped
at 3, projected to the learning-context shape. -/
def claimSimilarPatterns (qResults : List (Nat × ℚ)) (store : Store) :
    List PatternInfo :=
  (((claimResolvedMatches qResults store "question").filter fun m =>
      decide (m.episode.outcome = some "success") &&
        pyTruthyStr m.episode.sql &&
        decide (m.similarity > 3/10)).take 3).map fun m =>
    { episode_id := m.episode_id, question := m.episode.question,
      sql := m.episode.sql, similarity := m.similarity,
      outcome := m.episode.outcome }

/-- `relevant_insights` as amended: insight-index matches filtered to a
truthy (non-empty) insight and similarity > 0.2, capped at 3, projected
to the learning-context shape. -/
def claimRelevantInsights (iResults : List (Nat × ℚ)) (store : Store) :
    List InsightInfo :=
  (((claimResolvedMatches iResults store "insight").filter fun m =>
      pyTruthyStr m.episode.insight &&
        decide (m.similarity > 1/5)).take 3).map fun m =>
    { episode_id := m.episode_id, insight := m.episode.insight,
      original_question := m.episode.question,
      similarity := m.similarity }

/-- A store whose single successful episode carries the empty-string sql
(non-null but falsy). -/
def c9Store : Store :=
  { episodes := [{ id := 1, timestamp := "t", question := "Q",
                   sql := some "", outcome := some "success" }],
    nextId := 2 }

/-! ## Theorems -/

/-- C3 (code bug): every Policy Engine invocation increases `step` by
exactly 1, and the circuit-breaker check precedes loop detection and the
oracle; but once the incremented `step` exceeds `max_steps`, instead of
forcing DONE and appending the
`{agent: orchestrator, action: circuit_breaker}` record, the invocation
raises pydantic's `ValueError` on the undeclared `next_action`
assignment (orchestrator.py line 16) before the append at line 17 — so
no invocation ever appends anything to history or sets `next_action`. -/
theorem circuit_breaker_raises_before_recording (s : AgentState) :
    (orchestrator_node s).state.step = s.step + 1 ∧
    (orchestrator_node s).state.history = s.history ∧
    (orchestrator_node s).state.next_action = s.next_action ∧
    (s.step + 1 > s.max_steps →
      orchestrator_node s =
        .raised .undeclaredFieldAssignment { s with step := s.step + 1 }) := by
  refine ⟨?_, ?_, ?_, fun h => ?_⟩
  · unfold orchestrator_node
    dsimp only
    split
    · rfl
    · split
      · rfl
      · rfl
  · unfold orchestrator_node
    dsimp only
    split
    · rfl
    · split
      · rfl
      · rfl
  · unfold orchestrator_node
    dsimp only
    split
    · rfl
    · split
      · rfl
      · rfl
  · unfold orchestrator_node
    dsimp only
    rw [if_pos h]

/-- Witness for `circuit_breaker_raises_before_recording` at a concrete
exhausted state. -/
theorem circuit_breaker_raises_before_recording_witness :
    (orchestrator_node
      { question := "q", step := 6, max_steps := 6 }).state.step = 7 ∧
    orchestrator_node { question := "q", step := 6, max_steps := 6 } =
      .raised .undeclaredFieldAssignment
        { question := "q", step := 7, max_steps := 6 } :=
  ⟨(circuit_breaker_raises_before_recording _).1,
   (circuit_breaker_raises_before_recording
     { question := "q", step := 6, max_steps := 6 }).2.2.2 (by decide)⟩

/-- The source's `_force_progression` computes exactly the amended
mapping. -/
theorem force_progression_eq_spec (s : AgentState) (r : Option String) :
    force_progression s r = forcedProgressionSpec s r := by
  unfold force_progression forcedProgressionSpec
  simp only [Bool.and_eq_true, beq_iff_eq]

/-- `getLastD` only looks at the last element: dropping a prefix before a
nonempty tail changes nothing. -/
theorem getLastD_append_cons {α : Type} (xs : List α) (y : α) (ys : List α)
    (d : α) : (xs ++ y :: ys).getLastD d = (y :: ys).getLastD d := by
  rw [List.getLastD_eq_getLast?, List.getLastD_eq_getLast?,
    List.getLast?_append_cons]

/-- A list whose last-3 slice is a full 3-element list has length ≥ 3. -/
theorem length_ge_three_of_lastN {α : Type} (l : List α) (a b c : α)
    (h : lastN 3 l = [a, b, c]) : l.length ≥ 3 := by
  have := congrArg List.length h
  simp only [lastN, List.length_drop, List.length_cons, List.length_nil]
    at this
  omega

/-- The last element of a list is the last element of its last-3 slice. -/
theorem getLastD_of_lastN {α : Type} (l : List α) (a b c d : α)
    (h : lastN 3 l = [a, b, c]) : l.getLastD d = c := by
  have hsplit : l.take (l.length - 3) ++ lastN 3 l = l :=
    List.take_append_drop _ _
  rw [h] at hsplit
  rw [← hsplit, getLastD_append_cons]
  rfl

/-- Shared helper: when the budget is not exhausted and the loop detector
fires, `orchestrator_node` takes the loop-breaker branch, which raises
pydantic's `ValueError` on the `next_action` assignment (its distinctive
outcome: the else branch raises `NameError` instead). -/
theorem orchestrator_node_loop_branch (s : AgentState)
    (hbudget : s.step + 1 ≤ s.max_steps)
    (hlen : (recentDecisions s.history).length ≥ 3)
    (hsame : allSame (lastN 3 (recentDecisions s.history)) = true) :
    orchestrator_node s =
      .raised .undeclaredFieldAssignment { s with step := s.step + 1 } := by
  unfold orchestrator_node
  dsimp only
  rw [if_neg (by omega : ¬ s.step + 1 > s.max_steps)]
  rw [if_pos (by rw [decide_eq_true hlen, hsame]; rfl)]

/-- C4 counterexample: with the last 3 decisions all EXECUTE, rows
present but `sql` null and budget available, the invocation raises
pydantic's `ValueError` (orchestrator.py line 34) — so no `loop_breaker`
event is recorded and no decision is made — and the forced action that
`_force_progression` computes before the raise is DONE, not the claimed
SUMMARIZE: its EXECUTE rule additionally requires truthy `sql`. -/
theorem loop_breaker_execute_without_sql_counterexample :
    lastN 3 (recentDecisions c4LoopState.history) =
      [some "EXECUTE", some "EXECUTE", some "EXECUTE"] ∧
    pyTruthyList c4LoopState.rows = true ∧
    orchestrator_node c4LoopState =
      .raised .undeclaredFieldAssignment { c4LoopState with step := 1 } ∧
    (orchestrator_node c4LoopState).state.history = c4LoopState.history ∧
    force_progression { c4LoopState with step := 1 } (some "EXECUTE") =
      "DONE" ∧
    ¬ force_progression { c4LoopState with step := 1 } (some "EXECUTE") =
      "SUMMARIZE" := by
  decide

/-- C4 (amended): when the budget is not exhausted and the last 3
collected Policy-Engine decisions are identical, the loop detector fires
and bypasses the oracle; the forced action computed by
`_force_progression` equals the mapping `forcedProgressionSpec` (EXECUTE
progresses only when sql is present, otherwise DONE), but the invocation
then raises pydantic's `ValueError` on the undeclared `next_action`
assignment (orchestrator.py line 34) before any `loop_breaker` event is
recorded or `next_action` is set. -/
theorem loop_breaker_forced_progression (s : AgentState)
    (hbudget : s.step + 1 ≤ s.max_steps)
    (hlen : (recentDecisions s.history).length ≥ 3)
    (hsame : allSame (lastN 3 (recentDecisions s.history)) = true) :
    orchestrator_node s =
      .raised .undeclaredFieldAssignment { s with step := s.step + 1 } ∧
    force_progression { s with step := s.step + 1 }
        ((recentDecisions s.history).getLastD none) =
      forcedProgressionSpec s ((recentDecisions s.history).getLastD none) :=
  ⟨orchestrator_node_loop_branch s hbudget hlen hsame,
   force_progression_eq_spec { s with step := s.step + 1 }
     ((recentDecisions s.history).getLastD none)⟩

/-- Witness for `loop_breaker_forced_progression`: repeated PLAN with a
plan present; the forced mapping gives EXECUTE and the call raises. -/
theorem loop_breaker_forced_progression_witness :
    orchestrator_node c4WitnessState =
      .raised .undeclaredFieldAssignment
        { c4WitnessState with step := c4WitnessState.step + 1 } ∧
    force_progression
        { c4WitnessState with step := c4WitnessState.step + 1 }
        (some "PLAN") =
      "EXECUTE" := by
  have h := loop_breaker_forced_progression c4WitnessState
    (by decide) (by decide) (by decide)
  have e1 : (recentDecisions c4WitnessState.history).getLastD none =
      some "PLAN" := by decide
  rw [e1] at h
  exact ⟨h.1, by rw [h.2]; decide⟩

/-- C10: guard and fallback records (`circuit_breaker`, `loop_breaker`,
`error_fallback`) carry `agent = orchestrator` but no `decision` key, so
each contributes the null value to the loop detector's collected
decisions; when the last three collected values are all null they count
as identical and the loop-breaker branch fires (raising pydantic's
`ValueError` from the line-34 assignment, that branch's distinctive
outcome), with a null repeated action, which `_force_progression` maps
to DONE. -/
theorem null_decisions_loop_to_done (s : AgentState)
    (hbudget : s.step + 1 ≤ s.max_steps)
    (hnull : lastN 3 (recentDecisions s.history) = [none, none, none]) :
    orchestrator_node s =
      .raised .undeclaredFieldAssignment { s with step := s.step + 1 } ∧
    force_progression { s with step := s.step + 1 }
        ((recentDecisions s.history).getLastD none) = "DONE" ∧
    (∀ n, (circuitBreakerRecord n).agent = some "orchestrator" ∧
      (circuitBreakerRecord n).decision = none) ∧
    (∀ r f n, (loopBreakerRecord r f n).agent = some "orchestrator" ∧
      (loopBreakerRecord r f n).decision = none) ∧
    (∀ e f n, (errorFallbackRecord e f n).agent = some "orchestrator" ∧
      (errorFallbackRecord e f n).decision = none) := by
  have hlen := length_ge_three_of_lastN _ _ _ _ hnull
  have hlast : (recentDecisions s.history).getLastD none = none :=
    getLastD_of_lastN _ _ _ _ _ hnull
  refine ⟨orchestrator_node_loop_branch s hbudget hlen (by rw [hnull]; rfl),
    ?_, fun n => ⟨rfl, rfl⟩, fun r f n => ⟨rfl, rfl⟩,
    fun e f n => ⟨rfl, rfl⟩⟩
  rw [hlast]
  rfl

/-- Witness for `null_decisions_loop_to_done`: three `error_fallback`
records in a row fire the loop breaker with a null repeated action. -/
theorem null_decisions_loop_to_done_witness :
    orchestrator_node c10WitnessState =
      .raised .undeclaredFieldAssignment
        { c10WitnessState with step := c10WitnessState.step + 1 } ∧
    force_progression
        { c10WitnessState with step := c10WitnessState.step + 1 }
        ((recentDecisions c10WitnessState.history).getLastD none) =
      "DONE" :=
  ⟨(null_decisions_loop_to_done c10WitnessState (by decide) (by decide)).1,
   (null_decisions_loop_to_done c10WitnessState
     (by decide) (by decide)).2.1⟩

/-- C1 (code bug): on any state that passes both guards the decision step
raises — the oracle-prompt f-string interpolates the name `has_insights`
(orchestrator.py line 96), which is never bound in `orchestrator_node`'s
scope, and this happens *before* the `try` block — so the exception
escapes the function: no `error_fallback` record is appended and no
`next_action` is set, shown here at a concrete fresh run state. -/
theorem orchestrator_node_escaping_name_error :
    orchestrator_node { question := "q" } =
      .raised .nameErrorHasInsights { question := "q", step := 1 } ∧
    ((orchestrator_node { question := "q" }).state.history.filter
      (fun e => e.action == some "error_fallback")) = [] ∧
    (orchestrator_node { question := "q" }).state.next_action = none := by
  decide

/-- The fallback tree only ever returns enumerated actions. -/
theorem fallback_decision_mem (s : AgentState) :
    fallback_decision s ∈ validActions := by
  unfold fallback_decision
  dsimp only
  split_ifs <;> decide

/-- The parse/validate/extract-or-fallback step only ever chooses
enumerated actions. -/
theorem parse_oracle_action_mem (s : AgentState) (text : String) :
    (parse_oracle_action s text).1 ∈ validActions := by
  unfold parse_oracle_action
  dsimp only
  split
  · next hc =>
    have := List.elem_iff.mp hc
    simpa using this
  · split
    · next found heq => exact List.mem_of_find?_eq_some heq
    · exact fallback_decision_mem s

/-- C2 counterexample: the `AgentState` pydantic class in
src/core/state.py does not declare a `next_action` field. -/
theorem next_action_not_declared :
    "next_action" ∉ agentStateDeclaredFields := by decide

/-- C2 (amended): the `AgentState` record declares no `next_action`
field; the parse/validate/extract-or-fallback step always chooses one of
the 7 enumerated actions, but the decision step then raises pydantic's
`ValueError` on the undeclared-field assignment (orchestrator.py line
139, and again at line 165 inside the except handler), so `next_action`
is never set and neither the `decide_next_action` nor the
`error_fallback` record is ever appended — the state comes back
unchanged. -/
theorem decide_step_never_records (s : AgentState)
    (oracle : Except String String) (text : String) :
    "next_action" ∉ agentStateDeclaredFields ∧
    (parse_oracle_action s text).1 ∈ validActions ∧
    orchestrator_decide s oracle =
      .raised .undeclaredFieldAssignment s :=
  ⟨by decide, parse_oracle_action_mem s text, by cases oracle <;> rfl⟩

/-- C5 counterexample: with `error` equal to the literal string
`"no query to execute yet"` — which is not one of the code's recognized
state-indicator strings — the fallback tree treats it as a real error and
returns REFLECT, not the claimed EXECUTE. -/
theorem pseudo_error_literal_counterexample :
    realErrorOf c5PseudoErrorState.error = true ∧
    fallback_decision c5PseudoErrorState = "REFLECT" ∧
    ¬ fallback_decision c5PseudoErrorState = "EXECUTE" := by
  decide

/-- C5 (amended): the recognized state-indicator strings are
`"no_sql_to_execute"`, `"no_data"` and `"no_plan"`; for a run state with
such an error, plan and sql set, rows null and tools available, the
fallback decision is EXECUTE — a recognized state indicator is treated as
absence-of-error and never triggers REFLECT in the fallback tree. -/
theorem sentinel_error_fallback_execute (s : AgentState) (e : String)
    (herr : s.error = some e) (hmem : e ∈ stateIndicatorStrings)
    (hplan : pyTruthyList s.plan = true)
    (hsql : pyTruthyStr s.sql = true)
    (hrows : pyTruthyList s.rows = false)
    (htools : pyTruthyList s.available_tools = true) :
    fallback_decision s = "EXECUTE" := by
  have hreal : realErrorOf s.error = false := by
    rw [herr]
    simp only [stateIndicatorStrings, List.mem_cons,
      List.mem_singleton, List.not_mem_nil, or_false] at hmem
    rcases hmem with rfl | rfl | rfl <;> decide
  unfold fallback_decision
  dsimp only
  simp [htools, hreal, hplan, hsql, hrows]

/-- Witness for `sentinel_error_fallback_execute` at the state-indicator
error `"no_sql_to_execute"`. -/
theorem sentinel_error_fallback_execute_witness :
    fallback_decision
      { c5PseudoErrorState with error := some "no_sql_to_execute" } =
      "EXECUTE" :=
  sentinel_error_fallback_execute
    { c5PseudoErrorState with error := some "no_sql_to_execute" }
    "no_sql_to_execute" rfl (by decide) (by decide) (by decide)
    (by decide) (by decide)

/-- C6 counterexample: after a failed execution (`success` false,
error "boom"), `rows` on the run state is `some []` — non-null — even
though the operation did not report success, so "rows is non-null only if
the operation reported success" is false; `error` carries the failure. -/
theorem executor_rows_nonnull_on_failure_counterexample :
    (executor_node
        { question := "q", sql := some "SELECT 1", episode_id := some 1 }
        (.result false .emptyOrInvalid (some "boom")) c6Store "t").1.rows =
      some [] ∧
    execReportedOk (.result false .emptyOrInvalid (some "boom")) = false ∧
    (executor_node
        { question := "q", sql := some "SELECT 1", episode_id := some 1 }
        (.result false .emptyOrInvalid (some "boom")) c6Store "t").1.error =
      some "boom" := by
  decide

/-- The state returned by `executor_node` past the missing-sql guard
carries exactly the rows/error computed by `executorRowsError`. -/
theorem executor_node_rows_error (s : AgentState) (o : ExecOutcome)
    (store : Store) (ts : String) (hsql : pyTruthyStr s.sql = true) :
    (executor_node s o store ts).1.rows = some (executorRowsError o).1 ∧
    (executor_node s o store ts).1.error = (executorRowsError o).2 := by
  cases he : s.episode_id <;>
    simp only [executor_node, he] <;>
    dsimp only <;>
    rw [if_neg (by simp [hsql])] <;>
    exact ⟨rfl, rfl⟩

/-- C6 (amended): after `executor_node` runs with a truthy `sql`, `rows`
is always non-null (the failure paths set it to the empty list, not
null); `rows` is non-*empty* only if the operation reported success, and
`error` is null exactly when the operation reported success. -/
theorem executor_rows_error_invariant (s : AgentState) (o : ExecOutcome)
    (store : Store) (ts : String) (hsql : pyTruthyStr s.sql = true) :
    (executor_node s o store ts).1.rows ≠ none ∧
    ((executor_node s o store ts).1.error = none ↔
      execReportedOk o = true) ∧
    (pyTruthyList (executor_node s o store ts).1.rows = true →
      execReportedOk o = true) := by
  obtain ⟨hr, he⟩ := executor_node_rows_error s o store ts hsql
  rw [hr, he]
  refine ⟨by simp, ?_, ?_⟩ <;>
    rcases o with ⟨succ, content, errMsg⟩ | msg <;>
    first
    | (cases succ <;>
        rcases content with ⟨rs | ty | m⟩ | ⟨f, r⟩ | ty | _ <;>
        simp [executorRowsError, execReportedOk, pyTruthyList])
    | simp [executorRowsError, execReportedOk, pyTruthyList]

/-- Witness for `executor_rows_error_invariant`: a successful execution
whose content parses to one row yields non-null rows and a cleared
error. -/
theorem executor_rows_error_invariant_witness :
    (executor_node { question := "q", sql := some "SELECT 1" }
        (.result true (.textFirst (.list [[("a", "1")]])) none)
        c6Store "t").1.rows ≠ none ∧
    ((executor_node { question := "q", sql := some "SELECT 1" }
        (.result true (.textFirst (.list [[("a", "1")]])) none)
        c6Store "t").1.error = none ↔
      execReportedOk
        (.result true (.textFirst (.list [[("a", "1")]])) none) = true) ∧
    (pyTruthyList (executor_node { question := "q", sql := some "SELECT 1" }
        (.result true (.textFirst (.list [[("a", "1")]])) none)
        c6Store "t").1.rows = true →
      execReportedOk
        (.result true (.textFirst (.list [[("a", "1")]])) none) = true) :=
  executor_rows_error_invariant
    { question := "q", sql := some "SELECT 1" }
    (.result true (.textFirst (.list [[("a", "1")]])) none)
    c6Store "t" (by decide)

/-- `find?` ignores a prefix on which the predicate is everywhere false
and finds a freshly appended matching element. -/
theorem find?_append_fresh {α : Type} (p : α → Bool) (l : List α) (x : α)
    (hl : ∀ e ∈ l, p e = false) (hx : p x = true) :
    (l ++ [x]).find? p = some x := by
  induction l with
  | nil => simp [List.find?, hx]
  | cons a t ih =>
    have ha := hl a (by simp)
    rw [List.cons_append, List.find?_cons_of_neg _ (by simp [ha])]
    exact ih fun e he => hl e (by simp [he])

/-- C7: `log_episode(q, plan, sql)` followed by `get_episode(id)` returns
a row whose question/plan/sql equal the inputs (rows empty, everything
else null); a subsequent `update_episode(id, insight="x")` sets insight
to "x" and leaves question, plan, sql and all other columns unchanged —
the partial-field update merges into the row. -/
theorem log_get_update_roundtrip (store : Store) (ts q : String)
    (plan : Option (List String)) (sql : Option String)
    (hwf : ∀ e ∈ store.episodes, e.id < store.nextId) :
    get_episode (log_episode store ts q plan sql none none none none).2
        (log_episode store ts q plan sql none none none none).1 =
      some { id := store.nextId, timestamp := ts, question := q,
             plan := plan, sql := sql, rows := [], outcome := none,
             error := none, insight := none } ∧
    get_episode
        (update_episode
          (log_episode store ts q plan sql none none none none).2
          (log_episode store ts q plan sql none none none none).1
          { insight := some (some "x") })
        (log_episode store ts q plan sql none none none none).1 =
      some { id := store.nextId, timestamp := ts, question := q,
             plan := plan, sql := sql, rows := [], outcome := none,
             error := none, insight := some "x" } := by
  have hfresh : ∀ e ∈ store.episodes,
      (fun e : Episode => e.id == store.nextId) e = false := by
    intro e hemem
    simpa using Nat.ne_of_lt (hwf e hemem)
  constructor
  · simp only [log_episode, get_episode]
    rw [find?_append_fresh _ _ _ hfresh (by simp)]
    rfl
  · simp only [log_episode, get_episode, update_episode, List.map_append]
    have hpre : store.episodes.map
        (fun e => if e.id == store.nextId then
          applyUpdate { insight := some (some "x") } e else e) =
        store.episodes := by
      have := List.map_congr_left (l := store.episodes)
        (f := fun e => if e.id == store.nextId then
          applyUpdate { insight := some (some "x") } e else e)
        (g := id) (fun e he => by simp [hfresh e he])
      simpa using this
    rw [hpre]
    have hx : (fun e : Episode => e.id == store.nextId)
        (applyUpdate { insight := some (some "x") }
          { id := store.nextId, timestamp := ts, question := q,
            plan_json := plan, sql := sql, rows_json := [] }) = true := by
      simp [applyUpdate]
    simp only [List.map_cons, List.map_nil]
    rw [if_pos (beq_self_eq_true store.nextId)]
    rw [find?_append_fresh _ _ _ hfresh (by simp [applyUpdate])]
    rfl

/-- Witness for `log_get_update_roundtrip` on the empty store. -/
theorem log_get_update_roundtrip_witness :
    get_episode
        (log_episode { episodes := [], nextId := 1 } "t" "Q"
          (some ["p1"]) (some "SELECT 1") none none none none).2
        (log_episode { episodes := [], nextId := 1 } "t" "Q"
          (some ["p1"]) (some "SELECT 1") none none none none).1 =
      some { id := 1, timestamp := "t", question := "Q",
             plan := some ["p1"], sql := some "SELECT 1", rows := [],
             outcome := none, error := none, insight := none } ∧
    get_episode
        (update_episode
          (log_episode { episodes := [], nextId := 1 } "t" "Q"
            (some ["p1"]) (some "SELECT 1") none none none none).2
          (log_episode { episodes := [], nextId := 1 } "t" "Q"
            (some ["p1"]) (some "SELECT 1") none none none none).1
          { insight := some (some "x") })
        (log_episode { episodes := [], nextId := 1 } "t" "Q"
          (some ["p1"]) (some "SELECT 1") none none none none).1 =
      some { id := 1, timestamp := "t", question := "Q",
             plan := some ["p1"], sql := some "SELECT 1", rows := [],
             outcome := none, error := none, insight := some "x" } :=
  log_get_update_roundtrip { episodes := [], nextId := 1 } "t" "Q"
    (some ["p1"]) (some "SELECT 1") (by simp)

/-- C9 counterexample: with one successful episode whose sql is the empty
string (non-null but falsy) and a perfect-similarity index hit, the code
returns no similar patterns while the claim's literal "non-null sql"
filter keeps the match — the code filters on Python truthiness, not
non-nullness. -/
theorem learning_context_nonnull_sql_counterexample :
    (get_learning_context [(1, 0)] [] c9Store).similar_patterns = [] ∧
    claimSimilarPatternsNonNull [(1, 0)] c9Store ≠ [] := by
  constructor
  · simp [get_learning_context, find_similar_patterns,
      search_similar_questions, find_relevant_insights,
      search_similar_insights, c9Store, get_episode, List.find?,
      pyTruthyStr, pyMax]
  · simp [claimSimilarPatternsNonNull, claimResolvedMatches, c9Store,
      get_episode, List.find?, pyMax, List.filter]
    norm_num

/-- C9 (amended): for every question (index answers) and store,
`get_learning_context` returns exactly the claim's composition with
truthiness in place of non-nullness: similar_patterns = question-index
matches resolved against the store (vanished episodes dropped, similarity
= max(0, 1 − distance)), filtered to outcome = success, truthy sql and
similarity > 0.3, capped at 3; relevant_insights = insight-index matches
so resolved, filtered to truthy insight and similarity > 0.2, capped
at 3. -/
theorem learning_context_composition (qR iR : List (Nat × ℚ))
    (store : Store) :
    (get_learning_context qR iR store).similar_patterns =
      claimSimilarPatterns qR store ∧
    (get_learning_context qR iR store).relevant_insights =
      claimRelevantInsights iR store := by
  constructor
  · unfold get_learning_context find_similar_patterns
      claimSimilarPatterns claimResolvedMatches search_similar_questions
    dsimp only
    congr 1
    congr 1
    apply List.filter_congr
    intro m _
    by_cases h : m.episode.outcome = some "success" <;> simp [h]
  · unfold get_learning_context find_relevant_insights
      claimRelevantInsights claimResolvedMatches search_similar_insights
    dsimp only

/-- The empty pattern is a prefix of anything. -/
theorem listStartsWith_nil (l : List Char) : listStartsWith l [] = true := by
  cases l <;> rfl

/-- The empty pattern occurs in anything. -/
theorem listHasSub_nil_pat (l : List Char) : listHasSub l [] = true := by
  cases l with
  | nil => rfl
  | cons a t => simp [listHasSub, listStartsWith_nil]

/-- A prefix match survives appending on the right. -/
theorem listStartsWith_append (s suf pat : List Char)
    (h : listStartsWith s pat = true) :
    listStartsWith (s ++ suf) pat = true := by
  induction pat generalizing s with
  | nil => exact listStartsWith_nil _
  | cons b bs ih =>
    cases s with
    | nil => simp [listStartsWith] at h
    | cons a as =>
      simp only [List.cons_append, listStartsWith, Bool.and_eq_true] at h ⊢
      exact ⟨h.1, ih as h.2⟩

/-- A substring occurrence survives appending on the right. -/
theorem listHasSub_append_right (s suf pat : List Char)
    (h : listHasSub s pat = true) : listHasSub (s ++ suf) pat = true := by
  induction s with
  | nil =>
    have hp : pat = [] := by
      simpa [listHasSub, List.isEmpty_iff] using h
    subst hp
    exact listHasSub_nil_pat _
  | cons a t ih =>
    simp only [listHasSub, Bool.or_eq_true] at h
    simp only [List.cons_append, listHasSub, Bool.or_eq_true]
    rcases h with h | h
    · exact Or.inl (by
        have := listStartsWith_append (a :: t) suf pat h
        simpa using this)
    · exact Or.inr (ih h)

/-- A substring occurrence survives prepending on the left. -/
theorem listHasSub_append_left (pre s pat : List Char)
    (h : listHasSub s pat = true) : listHasSub (pre ++ s) pat = true := by
  induction pre with
  | nil => simpa using h
  | cons a t ih =>
    simp only [List.cons_append, listHasSub, Bool.or_eq_true]
    exact Or.inr ih

/-- A substring occurrence survives embedding between two strings. -/
theorem strHasSub_embed (pre s suf pat : String)
    (h : strHasSub s pat = true) :
    strHasSub (pre ++ s ++ suf) pat = true := by
  unfold strHasSub at h ⊢
  rw [String.data_append, String.data_append]
  exact listHasSub_append_right _ _ _ (listHasSub_append_left _ _ _ h)

/-- An enumerated-action occurrence survives embedding. -/
theorem containsValidAction_embed (pre s suf : String)
    (h : containsValidAction s = true) :
    containsValidAction (pre ++ s ++ suf) = true := by
  unfold containsValidAction at h ⊢
  rcases List.any_eq_true.mp h with ⟨a, ha, hsub⟩
  exact List.any_eq_true.mpr ⟨a, ha, strHasSub_embed pre s suf a hsub⟩

/-- The literal JSON wrap starts with an opening brace. -/
theorem wrap_startsWith_brace (s : String) :
    strStartsWith ("\x7b\"response\": \"" ++ s ++ "\"\x7d") "\x7b" = true := by
  unfold strStartsWith
  rw [String.data_append, String.data_append]
  apply listStartsWith_append
  apply listStartsWith_append
  decide

/-- C8 counterexample: the reflector stage's prompt (built by
`reflector_node` and sent through `llm_json`, i.e. `generate(user)` with
json_mode left False) receives the raw generic apology — unparsed text
that neither is a structured payload nor contains any of the 7 enumerated
actions. -/
theorem canned_responder_raw_text_counterexample :
    simple_fallback_response "lastSQL: SELECT 1\nerror: boom" false =
      apologyText ∧
    strStartsWith apologyText "\x7b" = false ∧
    containsValidAction apologyText = false := by
  decide

/-- Any response of the core heuristic to a prompt containing the
orchestration marker phrase carries one of the 7 enumerated actions. -/
theorem simple_fallback_core_marker (pl : String) (jm : Bool)
    (h : strHasSub pl "what action should be taken next" = true) :
    containsValidAction (simple_fallback_core pl jm) = true := by
  unfold simple_fallback_core
  rw [if_pos h]
  split_ifs <;> decide

/-- C8 (amended): for every prompt containing the responder's
orchestration marker phrase "what action should be taken next", the
canned response text contains one of the 7 enumerated actions (also
after JSON wrapping), and in json_mode the response is always a JSON
object (it starts with a brace); prompts sent without json_mode that miss
the marker — such as the reflector's stage prompts — receive raw text
(see the counterexample). -/
theorem canned_responder_actions_and_json (prompt : String)
    (json_mode : Bool) :
    (strHasSub (strToLower prompt) "what action should be taken next" =
        true →
      containsValidAction (simple_fallback_response prompt json_mode) =
        true) ∧
    (json_mode = true →
      strStartsWith (simple_fallback_response prompt json_mode) "\x7b" =
        true) := by
  unfold simple_fallback_response
  dsimp only
  constructor
  · intro hm
    split
    · exact containsValidAction_embed _ _ _
        (simple_fallback_core_marker _ _ hm)
    · exact simple_fallback_core_marker _ _ hm
  · intro hjm
    subst hjm
    by_cases hs : strStartsWith
        (simple_fallback_core (strToLower prompt) true) "\x7b" = true
    · rw [if_neg (by simp [hs])]
      exact hs
    · rw [if_pos (by simp only [Bool.not_eq_true] at hs; simp [hs])]
      exact wrap_startsWith_brace _

/-- Witness for `canned_responder_actions_and_json` at a concrete
marker-bearing orchestration prompt in json_mode. -/
theorem canned_responder_actions_and_json_witness :
    containsValidAction (simple_fallback_response
      "what action should be taken next? plan exists: no" true) = true ∧
    strStartsWith (simple_fallback_response
      "what action should be taken next? plan exists: no" true) "\x7b" =
      true :=
  ⟨(canned_responder_actions_and_json
      "what action should be taken next? plan exists: no" true).1
      (by decide),
   (canned_responder_actions_and_json
      "what action should be taken next? plan exists: no" true).2 rfl⟩
